import Mathlib

/-!
Verification of the gomijia2-exporter connection-lifecycle orchestration.

Shallow embedding of the relevant parts of `device.go`, `handler.go` and
`reading.go`.  Hardware outcomes (whether a connect / discover / subscribe /
unsubscribe / disconnect call succeeds, and what the discovered profile
looks like) are supplied by an oracle; everything else follows the Go
control flow.  Go `float64` arithmetic on sensor readings is modelled with
exact rationals; `math.Round` (round half away from zero) is modelled by
`goRound`.
-/

/-- Process-wide mutable state of `device.go` / `handler.go`: the atomic
reset flag `deviceResetNeeded`, the `errorsPerDevice` map (a total function,
absent keys read as 0, matching a Go map of `int`), and whether the shared
`bleDevice` handle is currently non-nil. -/
structure GlobalState where
  resetNeeded : Bool
  errors : String → Int
  handle : Bool

/-- The state at process start: flag clear, no recorded errors, and the
shared handle constructed by `main`. -/
def initState : GlobalState := ⟨false, fun _ => 0, true⟩

/-- Embedding of `RequestBLEDeviceReset` (device.go): stores 1 into the
atomic `deviceResetNeeded`. -/
def RequestBLEDeviceReset (s : GlobalState) : GlobalState :=
  { s with resetNeeded := true }

/-- Embedding of `IsBLEDeviceResetRequested` (device.go). -/
def IsBLEDeviceResetRequested (s : GlobalState) : Bool :=
  s.resetNeeded

/-- Embedding of `ClearBLEDeviceResetRequest` (device.go). -/
def ClearBLEDeviceResetRequest (s : GlobalState) : GlobalState :=
  { s with resetNeeded := false }

/-- Embedding of `IncrementErrors` (device.go): increments the per-device
counter, and if the new value is at least 3 requests a global reset.
Returns the updated state together with the new counter value. -/
def IncrementErrors (name : String) (s : GlobalState) : GlobalState × Int :=
  let current := s.errors name + 1
  let s' : GlobalState := { s with errors := fun n => if n = name then current else s.errors n }
  if current ≥ 3 then (RequestBLEDeviceReset s', current) else (s', current)

/-- Embedding of `ResetErrors` (device.go): sets the per-device counter
back to 0. -/
def ResetErrors (name : String) (s : GlobalState) : GlobalState :=
  { s with errors := fun n => if n = name then 0 else s.errors n }

/-- The only two operations in the source that write an `errorsPerDevice`
entry (`resetBLEDevice` resets entries by calling `ResetErrors` in a loop). -/
inductive TallyOp where
  | inc (name : String)
  | reset (name : String)

/-- Apply one tally operation to the global state. -/
def applyTallyOp (s : GlobalState) : TallyOp → GlobalState
  | .inc n => (IncrementErrors n s).1
  | .reset n => ResetErrors n s

/-- Run a sequence of tally operations from a starting state. -/
def runTallyOps (ops : List TallyOp) (s : GlobalState) : GlobalState :=
  ops.foldl applyTallyOp s

/-- The `for _, device := range globalConfig.Devices { ResetErrors(...) }`
loop of `resetBLEDevice` (handler.go). -/
def resetAllErrors (ds : List String) (s : GlobalState) : GlobalState :=
  ds.foldl (fun st n => ResetErrors n st) s

/-- Embedding of `resetBLEDevice` (handler.go).  `lockAcquired` models
whether `bleMutex` was obtained before the 10 s timeout fired;
`newDeviceOk` models whether `linux.NewDevice()` succeeds; `cfgDevices`
models `globalConfig` (`none` = nil config).  Returns the new state and
whether the function returned a nil error.  Note that the timeout branch
returns before the tally-reset loop is reached, so it never resets the
`errorsPerDevice` entries. -/
def resetBLEDevice (s : GlobalState) (lockAcquired : Bool) (newDeviceOk : Bool)
    (cfgDevices : Option (List String)) : GlobalState × Bool :=
  if lockAcquired then
    let s1 := match cfgDevices with
      | some ds => resetAllErrors ds s
      | none => s
    let s2 : GlobalState := { s1 with handle := false }
    if newDeviceOk then
      (ClearBLEDeviceResetRequest { s2 with handle := true }, true)
    else
      (s2, false)
  else
    let s1 : GlobalState := { s with handle := false }
    if newDeviceOk then
      (ClearBLEDeviceResetRequest { s1 with handle := true }, true)
    else
      (s1, false)

/-- Loop body of `performWithRetry` (device.go), generic in the state `σ`
threaded through the closures.  The action receives the current `retry`
index (Go closures distinguish calls through mutated captured state; the
index is that same information made explicit).  On iterations with
`retry > 0` the loop first sleeps `backoff` and then triples `backoff`;
then the action runs; on success the loop returns true, otherwise
`onError` runs and the loop continues. -/
def performWithRetryAux {σ : Type} (action : Nat → σ → σ × Bool)
    (onError : Nat → σ → σ) (sleep : Nat → σ → σ) :
    Nat → Nat → Nat → σ → σ × Bool
  | 0, _, _, s => (s, false)
  | remaining + 1, retry, backoff, s =>
    let s1 := if retry > 0 then sleep backoff s else s
    let backoff1 := if retry > 0 then backoff * 3 else backoff
    let r := action retry s1
    if r.2 then (r.1, true)
    else performWithRetryAux action onError sleep remaining (retry + 1) backoff1 (onError retry r.1)

/-- Embedding of `performWithRetry` (device.go): up to `maxRetries`
iterations, starting at retry index 0 with a 1 s backoff. -/
def performWithRetry {σ : Type} (maxRetries : Nat) (action : Nat → σ → σ × Bool)
    (onError : Nat → σ → σ) (sleep : Nat → σ → σ) (s : σ) : σ × Bool :=
  performWithRetryAux action onError sleep maxRetries 0 1 s

/-- Instrumentation state used to state the `performWithRetry` contract:
how many times the action ran, the sleep durations in order (seconds),
and how many times `onError` ran. -/
structure RetryTrace where
  calls : Nat
  sleeps : List Nat
  failures : Nat
deriving DecidableEq

/-- Instrumented operation: record the call, succeed iff `outcome` says
this attempt succeeds. -/
def traceAction (outcome : Nat → Bool) (k : Nat) (t : RetryTrace) : RetryTrace × Bool :=
  ({ t with calls := t.calls + 1 }, outcome k)

/-- Instrumented `onFailure` callback: record the invocation. -/
def traceOnError (_ : Nat) (t : RetryTrace) : RetryTrace :=
  { t with failures := t.failures + 1 }

/-- Instrumented sleep: record the duration. -/
def traceSleep (d : Nat) (t : RetryTrace) : RetryTrace :=
  { t with sleeps := t.sleeps ++ [d] }

/-- Run `performWithRetry` with an operation whose attempt outcomes are
given by `outcome`, recording calls, sleeps and `onError` invocations. -/
def runRetry (m : Nat) (outcome : Nat → Bool) : RetryTrace × Bool :=
  performWithRetry m (traceAction outcome) traceOnError traceSleep ⟨0, [], 0⟩

/-- Observable events of one poll cycle, in program order. -/
inductive Ev where
  | acquireLock
  | publish
  | discoverAttempt
  | subscribeAttempt
  | unsubscribeAttempt
  | sleepSec (n : Nat)
  | disconnect
  | releaseLock
deriving DecidableEq

/-- Oracle for the hardware outcomes of one poll cycle: whether the
connect (with its internal retries) ultimately succeeds, the per-attempt
outcomes of profile discovery / subscribe / unsubscribe, the shape of the
discovered characteristic, and whether `Disconnect` returns nil. -/
structure HwOracle where
  connectOk : Bool
  discoverResults : Nat → Bool
  charFound : Bool
  charNotify : Bool
  charCCCD : Bool
  subscribeResults : Nat → Bool
  unsubscribeResults : Nat → Bool
  disconnectOk : Bool

/-- State threaded through one `performWithRetry` call site in
`device.go`: the global state, the emitted events, and the call site's
`localErrors` counter. -/
structure RetrySt where
  g : GlobalState
  trace : List Ev
  localErrors : Nat

/-- Embedding of `discoverDeviceProfile` (device.go): `performWithRetry`
over `DiscoverProfile` with `onError` incrementing both `localErrors` and
the device tally; on success with `localErrors == 0` the tally is reset.
The boolean is true iff a profile was obtained (non-nil pointer). -/
def discoverDeviceProfile (o : HwOracle) (name : String) (s : GlobalState) :
    RetrySt × Bool :=
  let r := performWithRetry 3
    (fun k st => (⟨st.g, st.trace ++ [Ev.discoverAttempt], st.localErrors⟩, o.discoverResults k))
    (fun _ st => ⟨(IncrementErrors name st.g).1, st.trace, st.localErrors + 1⟩)
    (fun d st => ⟨st.g, st.trace ++ [Ev.sleepSec d], st.localErrors⟩)
    ⟨s, [], 0⟩
  if r.2 then
    if r.1.localErrors == 0 then (⟨ResetErrors name r.1.g, r.1.trace, r.1.localErrors⟩, true)
    else r
  else r

/-- Embedding of `subscribeToCharacteristic` (device.go): `performWithRetry`
over `Subscribe` with `onError` incrementing `localErrors` and the device
tally. -/
def subscribeToCharacteristic (o : HwOracle) (name : String) (s : GlobalState) :
    RetrySt × Bool :=
  performWithRetry 3
    (fun k st => (⟨st.g, st.trace ++ [Ev.subscribeAttempt], st.localErrors⟩, o.subscribeResults k))
    (fun _ st => ⟨(IncrementErrors name st.g).1, st.trace, st.localErrors + 1⟩)
    (fun d st => ⟨st.g, st.trace ++ [Ev.sleepSec d], st.localErrors⟩)
    ⟨s, [], 0⟩

/-- Embedding of `unsubscribeFromCharacteristic` (device.go): like
subscribe, but the overall success is only logged, never acted on. -/
def unsubscribeFromCharacteristic (o : HwOracle) (name : String) (s : GlobalState) :
    RetrySt × Bool :=
  performWithRetry 3
    (fun k st => (⟨st.g, st.trace ++ [Ev.unsubscribeAttempt], st.localErrors⟩, o.unsubscribeResults k))
    (fun _ st => ⟨(IncrementErrors name st.g).1, st.trace, st.localErrors + 1⟩)
    (fun d st => ⟨st.g, st.trace ++ [Ev.sleepSec d], st.localErrors⟩)
    ⟨s, [], 0⟩

/-- Result of `readSensorData`. -/
structure ReadResult where
  g : GlobalState
  trace : List Ev
  success : Bool

/-- Embedding of `readSensorData` (device.go): discover the profile (3
attempts); if that fails return false; if the characteristic is found and
is notify-capable with a CCCD, subscribe (3 attempts, failure returns
false), hold the subscription 6 s, unsubscribe (best effort) and return
true; otherwise return false.  The accumulated `errors` local of the Go
function is write-only and is not modelled. -/
def readSensorData (o : HwOracle) (name : String) (s : GlobalState) : ReadResult :=
  let d := discoverDeviceProfile o name s
  if d.2 then
    if o.charFound then
      if o.charNotify && o.charCCCD then
        let sub := subscribeToCharacteristic o name d.1.g
        if sub.2 then
          let unsub := unsubscribeFromCharacteristic o name sub.1.g
          ⟨unsub.1.g, d.1.trace ++ sub.1.trace ++ [Ev.sleepSec 6] ++ unsub.1.trace, true⟩
        else ⟨sub.1.g, d.1.trace ++ sub.1.trace, false⟩
      else ⟨d.1.g, d.1.trace, false⟩
    else ⟨d.1.g, d.1.trace, false⟩
  else ⟨d.1.g, d.1.trace, false⟩

/-- Result of `handleDeviceOperation`: the state, the emitted events, the
first return value (`dataSuccess`), the second return value as the caller
sees it (`returnedErr`), and what the deferred `Disconnect` call actually
returned (`disconnectErred`). -/
structure OpResult where
  g : GlobalState
  trace : List Ev
  dataSuccess : Bool
  returnedErr : Bool
  disconnectErred : Bool

/-- Embedding of `handleDeviceOperation` (device.go).  `pub` is modelled
as the single `publish` event: its internal profile discovery and write
touch none of the tracked state (their errors are only logged).  The
function's results are unnamed, so `return dataSuccess, disconnectErr`
captures `disconnectErr` while it is still nil; the deferred function that
runs `Disconnect` afterwards assigns only the local variable, which no
longer reaches the caller.  Hence `returnedErr` is always `false` while
`disconnectErred` records the real outcome of the deferred call. -/
def handleDeviceOperation (o : HwOracle) (name : String) (s : GlobalState) : OpResult :=
  let rd := readSensorData o name s
  { g := rd.g
    trace := Ev.publish :: rd.trace ++ [Ev.disconnect]
    dataSuccess := rd.success
    returnedErr := false
    disconnectErred := !o.disconnectOk }

/-- Embedding of `checkForResetNeeds` (device.go): request a reset iff
the consecutive-failure count is at least 3 or a critical error occurred. -/
def checkForResetNeeds (consecutiveFailures : Nat) (criticalError : Bool)
    (s : GlobalState) : GlobalState × Bool :=
  if consecutiveFailures ≥ 3 || criticalError then (RequestBLEDeviceReset s, true)
  else (s, false)

/-- Embedding of `calculateWaitTime` (device.go), in seconds; the
measurement-interval flag is nonnegative in any meaningful configuration
and Go integer division on nonnegative values agrees with Nat division. -/
def calculateWaitTime (interval : Nat) (success : Bool) : Nat :=
  if !success then
    let waitTime := interval / 2
    if waitTime < 10 then 10 else waitTime
  else interval

/-- Everything observable about one iteration of the `RegisterHandler`
loop: final state, event trace, the `success` and `criticalError` locals,
the failure count handed to `checkForResetNeeds` (`cfChecked`), the count
carried into the next iteration (`cfNext`, after the halving rule), the
step-5 grace wait in seconds (10 or 0), the step-8 wait, whether the
deferred disconnect errored, and the connect / data outcomes. -/
structure CycleResult where
  g : GlobalState
  trace : List Ev
  success : Bool
  criticalError : Bool
  cfChecked : Nat
  cfNext : Nat
  graceWait : Nat
  waitTime : Nat
  disconnectErred : Bool
  connected : Bool
  dataSuccess : Bool

/-- Embedding of one iteration of the `RegisterHandler` loop (device.go),
entered with consecutive-failure count `cf`:  acquire the shared lock,
connect, run `handleDeviceOperation` when connected, update the failure
count, `checkForResetNeeds`, release the lock, wait 10 s if a reset was
requested in this cycle and is still pending, halve the count at the cap
of 5, and compute the inter-cycle wait.  A failed connect increments only
the Prometheus error counter (not modelled), not `errorsPerDevice`. -/
def registerHandlerCycle (o : HwOracle) (name : String) (interval : Nat)
    (s : GlobalState) (cf : Nat) : CycleResult :=
  if o.connectOk then
    let op := handleDeviceOperation o name s
    let success := op.dataSuccess
    let cf1 := if op.dataSuccess then 0 else cf + 1
    let criticalError := if op.dataSuccess then false else op.returnedErr
    let check := checkForResetNeeds cf1 criticalError op.g
    let graceWait := if check.2 && IsBLEDeviceResetRequested check.1 then 10 else 0
    let cf2 := if cf1 ≥ 5 then 5 / 2 else cf1
    { g := check.1
      trace := Ev.acquireLock :: op.trace ++ [Ev.releaseLock]
      success := success
      criticalError := criticalError
      cfChecked := cf1
      cfNext := cf2
      graceWait := graceWait
      waitTime := calculateWaitTime interval success
      disconnectErred := op.disconnectErred
      connected := true
      dataSuccess := op.dataSuccess }
  else
    let cf1 := cf + 1
    let check := checkForResetNeeds cf1 false s
    let graceWait := if check.2 && IsBLEDeviceResetRequested check.1 then 10 else 0
    let cf2 := if cf1 ≥ 5 then 5 / 2 else cf1
    { g := check.1
      trace := [Ev.acquireLock, Ev.releaseLock]
      success := false
      criticalError := false
      cfChecked := cf1
      cfNext := cf2
      graceWait := graceWait
      waitTime := calculateWaitTime interval false
      disconnectErred := false
      connected := false
      dataSuccess := false }

/-- Embedding of the `Reading` struct (reading.go); the Go `float64`
fields are modelled by exact rationals. -/
structure Reading where
  temperature : ℚ
  humidity : ℚ
  voltage : ℚ
deriving DecidableEq

/-- Embedding of `binary.LittleEndian.Uint16` on two bytes (reading.go): low byte plus
256 times the high byte, reduced into the uint16 range. -/
def uint16LE (lo hi : Nat) : Nat :=
  (lo + 256 * hi) % 65536

/-- Embedding of `Unmarshall` (reading.go): a 5-byte payload decodes to
temperature = LE16(bytes 0-1)/100, humidity = byte 2, voltage =
LE16(bytes 3-5)/1000; any other length is an error. -/
def Unmarshall (req : List Nat) : Except String Reading :=
  match req with
  | [b0, b1, b2, b3, b4] =>
    .ok
      { temperature := (uint16LE b0 b1 : ℚ) / 100
        humidity := (b2 : ℚ)
        voltage := (uint16LE b3 b4 : ℚ) / 1000 }
  | _ => .error ("Expecting 5 bytes got " ++ toString req.length)

/-- Go `math.Round` on an exact rational: round half away from zero. -/
def goRound (x : ℚ) : ℤ :=
  if 0 ≤ x then ⌊x + 1 / 2⌋ else -⌊-x + 1 / 2⌋

/-- The battery-percentage expression of `handlerPublisher` (handler.go):
`math.Round(math.Min((voltage-2.1)*100, 100)*100) / 100`. -/
def batteryPercent (voltage : ℚ) : ℚ :=
  (goRound (min ((voltage - 21 / 10) * 100) 100 * 100) : ℚ) / 100

/-- The four per-device gauges that `handlerPublisher` can set; `none`
means the gauge has not been written. -/
structure Gauges where
  temperature : Option ℚ
  humidity : Option ℚ
  voltage : Option ℚ
  battery : Option ℚ
deriving DecidableEq

/-- Embedding of the notification callback built by `handlerPublisher`
(handler.go): decode the payload; on a decode error log and return with
nothing updated; otherwise set the temperature, humidity, voltage and
derived battery gauges.  The global state is passed through untouched —
the callback never touches the tally or the reset flag. -/
def handlerPublisher (req : List Nat) (gauges : Gauges) (s : GlobalState) :
    Gauges × GlobalState :=
  match Unmarshall req with
  | .error _ => (gauges, s)
  | .ok r =>
    ({ temperature := some r.temperature
       humidity := some r.humidity
       voltage := some r.voltage
       battery := some (batteryPercent r.voltage) }, s)

lemma ResetErrors_resetNeeded (n : String) (s : GlobalState) :
    (ResetErrors n s).resetNeeded = s.resetNeeded := rfl

lemma ResetErrors_handle (n : String) (s : GlobalState) :
    (ResetErrors n s).handle = s.handle := rfl

lemma IncrementErrors_errors (name : String) (s : GlobalState) (m : String) :
    ((IncrementErrors name s).1).errors m =
      if m = name then s.errors name + 1 else s.errors m := by
  simp only [IncrementErrors]
  split <;> rfl

lemma IncrementErrors_resetNeeded (name : String) (s : GlobalState) :
    ((IncrementErrors name s).1).resetNeeded =
      (s.resetNeeded || decide (s.errors name + 1 ≥ 3)) := by
  simp only [IncrementErrors]
  split <;> rename_i h <;> simp [RequestBLEDeviceReset, h]

lemma RequestBLEDeviceReset_of_set {t : GlobalState} (h : t.resetNeeded = true) :
    RequestBLEDeviceReset t = t := by
  cases t
  simp_all [RequestBLEDeviceReset]

lemma resetAllErrors_resetNeeded (ds : List String) (s : GlobalState) :
    (resetAllErrors ds s).resetNeeded = s.resetNeeded := by
  induction ds generalizing s with
  | nil => rfl
  | cons d t ih => simpa [resetAllErrors, List.foldl] using ih (ResetErrors d s)

lemma resetAllErrors_handle (ds : List String) (s : GlobalState) :
    (resetAllErrors ds s).handle = s.handle := by
  induction ds generalizing s with
  | nil => rfl
  | cons d t ih => simpa [resetAllErrors, List.foldl] using ih (ResetErrors d s)

lemma resetAllErrors_not_mem {ds : List String} {n : String} (s : GlobalState)
    (h : n ∉ ds) : (resetAllErrors ds s).errors n = s.errors n := by
  induction ds generalizing s with
  | nil => rfl
  | cons d t ih =>
    have hd : n ≠ d := fun e => h (e ▸ List.mem_cons_self d t)
    have ht : n ∉ t := fun e => h (List.mem_cons_of_mem d e)
    have := ih (ResetErrors d s) ht
    simpa [resetAllErrors, List.foldl, ResetErrors, hd] using this

lemma resetAllErrors_mem {ds : List String} {n : String} (s : GlobalState)
    (h : n ∈ ds) : (resetAllErrors ds s).errors n = 0 := by
  induction ds generalizing s with
  | nil => cases h
  | cons d t ih =>
    by_cases ht : n ∈ t
    · simpa [resetAllErrors, List.foldl] using ih (ResetErrors d s) ht
    · have hd : n = d := by
        rcases List.mem_cons.mp h with h1 | h1
        · exact h1
        · exact absurd h1 ht
      have : (resetAllErrors t (ResetErrors d s)).errors n = (ResetErrors d s).errors n :=
        resetAllErrors_not_mem (ResetErrors d s) ht
      simp only [resetAllErrors, List.foldl] at this ⊢
      rw [this, hd]
      simp [ResetErrors]

lemma runTallyOps_nonneg (ops : List TallyOp) (s : GlobalState)
    (h : ∀ n, 0 ≤ s.errors n) : ∀ n, 0 ≤ (runTallyOps ops s).errors n := by
  induction ops generalizing s with
  | nil => exact h
  | cons op t ih =>
    refine ih (applyTallyOp s op) ?_
    intro n
    cases op with
    | inc m =>
      have := h n
      have hm := h m
      simp only [applyTallyOp, IncrementErrors_errors]
      split <;> omega
    | reset m =>
      simp only [applyTallyOp, ResetErrors]
      split <;> [omega; exact h n]

/-- Claim C2: in `resetBLEDevice`, entered with the reset flag set, the
flag is cleared iff construction of the new handle succeeds (in both the
lock-acquired and the timeout branch), the function returns success iff
construction succeeds, and a working handle is installed iff construction
succeeds — in particular the timeout branch still installs a new handle
and clears the flag, and on construction failure the flag remains set and
an error is returned. -/
theorem C2_reset_flag_iff_rebuild_ok (s : GlobalState) (lock ok : Bool)
    (ds : Option (List String)) (h : s.resetNeeded = true) :
    (resetBLEDevice s lock ok ds).2 = ok ∧
    ((resetBLEDevice s lock ok ds).1).resetNeeded = !ok ∧
    ((resetBLEDevice s lock ok ds).1).handle = ok := by
  cases lock <;> cases ok <;> cases ds <;>
    simp [resetBLEDevice, ClearBLEDeviceResetRequest, resetAllErrors_resetNeeded, h]

/-- Witness for C2 at a concrete input: flag set, lock timed out,
construction succeeds. -/
theorem C2_witness :
    (resetBLEDevice (RequestBLEDeviceReset initState) false true none).2 = true ∧
    ((resetBLEDevice (RequestBLEDeviceReset initState) false true none).1).resetNeeded = !true ∧
    ((resetBLEDevice (RequestBLEDeviceReset initState) false true none).1).handle = true :=
  C2_reset_flag_iff_rebuild_ok (RequestBLEDeviceReset initState) false true none rfl

/-- Claim C3 counterexample: a global reset completed through the timeout
branch of `resetBLEDevice` (reset succeeds, flag cleared) leaves a
device's failure tally at 1, not 0 — refuting "the tally equals exactly 0
immediately after a global reset" as stated. -/
theorem C3_counterexample :
    (resetBLEDevice (RequestBLEDeviceReset ((IncrementErrors "a" initState).1))
        false true (some ["a"])).2 = true ∧
    ((resetBLEDevice (RequestBLEDeviceReset ((IncrementErrors "a" initState).1))
        false true (some ["a"])).1).resetNeeded = false ∧
    ((resetBLEDevice (RequestBLEDeviceReset ((IncrementErrors "a" initState).1))
        false true (some ["a"])).1).errors "a" = 1 := by
  decide

/-- Claim C3 (amended): every tally reachable from the initial state by
the source's tally operations is nonnegative; the tally is exactly 0
immediately after `ResetErrors` (how the code records a success) and
immediately after a global reset that acquires the radio lock; a global
reset completed through the timeout branch leaves every tally unchanged. -/
theorem C3_amended :
    (∀ ops n, 0 ≤ (runTallyOps ops initState).errors n) ∧
    (∀ s n, (ResetErrors n s).errors n = 0) ∧
    (∀ s (ds : List String) n ok, n ∈ ds →
      ((resetBLEDevice s true ok (some ds)).1).errors n = 0) ∧
    (∀ s ok (ds : Option (List String)) n,
      ((resetBLEDevice s false ok ds).1).errors n = s.errors n) := by
  refine ⟨?_, ?_, ?_, ?_⟩
  · intro ops n
    exact runTallyOps_nonneg ops initState (fun _ => le_refl 0) n
  · intro s n
    simp [ResetErrors]
  · intro s ds n ok h
    cases ok <;>
      simp [resetBLEDevice, ClearBLEDeviceResetRequest, resetAllErrors_mem s h]
  · intro s ok ds n
    cases ok <;> simp [resetBLEDevice, ClearBLEDeviceResetRequest]

/-- Witness for C3 (amended) at concrete inputs. -/
theorem C3_amended_witness :
    0 ≤ (runTallyOps [TallyOp.inc "a"] initState).errors "a" ∧
    (ResetErrors "a" initState).errors "a" = 0 ∧
    ((resetBLEDevice initState true true (some ["a"])).1).errors "a" = 0 ∧
    ((resetBLEDevice initState false true none).1).errors "a" = initState.errors "a" :=
  ⟨C3_amended.1 [TallyOp.inc "a"] "a", C3_amended.2.1 initState "a",
    C3_amended.2.2.1 initState ["a"] "a" true (List.mem_singleton.mpr rfl),
    C3_amended.2.2.2 initState true none "a"⟩

/-- Claim C4: starting from a device with tally 0 and the flag clear,
three consecutive `IncrementErrors` calls leave the flag clear after the
first and second and set it at the third (the flag is raised exactly
once); `RequestBLEDeviceReset` on the already-set state is a no-op (the
same observable state), setting twice equals setting once, and the three
increments never touch another device's tally. -/
theorem C4_reset_request_once (s : GlobalState) (n n' : String)
    (h0 : s.errors n = 0) (hf : s.resetNeeded = false) (hne : n' ≠ n) :
    ((IncrementErrors n s).1).resetNeeded = false ∧
    ((IncrementErrors n (IncrementErrors n s).1).1).resetNeeded = false ∧
    ((IncrementErrors n (IncrementErrors n (IncrementErrors n s).1).1).1).resetNeeded = true ∧
    RequestBLEDeviceReset
        ((IncrementErrors n (IncrementErrors n (IncrementErrors n s).1).1).1) =
      (IncrementErrors n (IncrementErrors n (IncrementErrors n s).1).1).1 ∧
    ((IncrementErrors n (IncrementErrors n (IncrementErrors n s).1).1).1).errors n'
        = s.errors n' ∧
    (∀ t, RequestBLEDeviceReset (RequestBLEDeviceReset t) = RequestBLEDeviceReset t) := by
  have e1 : ((IncrementErrors n s).1).errors n = 1 := by
    simp [IncrementErrors_errors, h0]
  have r1 : ((IncrementErrors n s).1).resetNeeded = false := by
    rw [IncrementErrors_resetNeeded, hf, h0]
    decide
  have e2 : ((IncrementErrors n (IncrementErrors n s).1).1).errors n = 2 := by
    simp [IncrementErrors_errors, h0]
  have r2 : ((IncrementErrors n (IncrementErrors n s).1).1).resetNeeded = false := by
    rw [IncrementErrors_resetNeeded, r1, e1]
    decide
  have r3 :
      ((IncrementErrors n (IncrementErrors n (IncrementErrors n s).1).1).1).resetNeeded
        = true := by
    rw [IncrementErrors_resetNeeded, r2, e2]
    decide
  refine ⟨r1, r2, r3, RequestBLEDeviceReset_of_set r3, ?_, fun t => rfl⟩
  simp [IncrementErrors_errors, hne]

/-- Witness for C4 at concrete inputs. -/
theorem C4_witness :
    ((IncrementErrors "a" initState).1).resetNeeded = false ∧
    ((IncrementErrors "a" (IncrementErrors "a" initState).1).1).resetNeeded = false ∧
    ((IncrementErrors "a"
        (IncrementErrors "a" (IncrementErrors "a" initState).1).1).1).resetNeeded = true ∧
    RequestBLEDeviceReset
        ((IncrementErrors "a"
          (IncrementErrors "a" (IncrementErrors "a" initState).1).1).1) =
      (IncrementErrors "a"
        (IncrementErrors "a" (IncrementErrors "a" initState).1).1).1 ∧
    ((IncrementErrors "a"
        (IncrementErrors "a" (IncrementErrors "a" initState).1).1).1).errors "b"
        = initState.errors "b" ∧
    (∀ t, RequestBLEDeviceReset (RequestBLEDeviceReset t) = RequestBLEDeviceReset t) :=
  C4_reset_request_once initState "a" "b" rfl rfl (by decide)

lemma Unmarshall_err_of_length {req : List Nat} (h : req.length ≠ 5) :
    ∃ m, Unmarshall req = .error m := by
  rcases req with _ | ⟨a, _ | ⟨b, _ | ⟨c, _ | ⟨d, _ | ⟨e, _ | ⟨f, t⟩⟩⟩⟩⟩⟩
  · exact ⟨_, rfl⟩
  · exact ⟨_, rfl⟩
  · exact ⟨_, rfl⟩
  · exact ⟨_, rfl⟩
  · exact ⟨_, rfl⟩
  · exact absurd rfl h
  · exact ⟨_, rfl⟩

/-- Claim C6: a 5-byte payload decodes with no error to temperature =
LE16(bytes 0-1)/100, humidity = byte 2, voltage = LE16(bytes 3-4)/1000;
any other length yields an error; and the concrete payload
E8 03 32 88 13 decodes to temperature 10, humidity 50, voltage 5. -/
theorem C6_unmarshall_spec :
    (∀ b0 b1 b2 b3 b4 : Nat,
      Unmarshall [b0, b1, b2, b3, b4] =
        .ok ⟨(uint16LE b0 b1 : ℚ) / 100, (b2 : ℚ), (uint16LE b3 b4 : ℚ) / 1000⟩) ∧
    (∀ req : List Nat, req.length ≠ 5 → ∃ m, Unmarshall req = .error m) ∧
    Unmarshall [0xE8, 0x03, 0x32, 0x88, 0x13] = .ok ⟨10, 50, 5⟩ := by
  refine ⟨fun b0 b1 b2 b3 b4 => rfl, fun req h => Unmarshall_err_of_length h, ?_⟩
  norm_num [Unmarshall, uint16LE]

/-- Witness for C6's decode-failure hypothesis at a concrete 4-byte input. -/
theorem C6_witness : ∃ m, Unmarshall [1, 2, 3, 4] = .error m :=
  C6_unmarshall_spec.2.1 [1, 2, 3, 4] (by decide)

/-- Claim C7: the published battery percentage maps 2.1 V to 0 and 3.1 V
to 100, clamps every voltage of 3.1 V or above to 100, applies no clamp
below 2.1 V (the rounded linear formula applies verbatim there), and in
particular produces the negative value -10 at 2.0 V. -/
theorem C7_battery_percent :
    batteryPercent (21 / 10) = 0 ∧
    batteryPercent (31 / 10) = 100 ∧
    (∀ v : ℚ, 31 / 10 ≤ v → batteryPercent v = 100) ∧
    (∀ v : ℚ, v ≤ 21 / 10 →
      batteryPercent v = (goRound ((v - 21 / 10) * 100 * 100) : ℚ) / 100) ∧
    batteryPercent 2 = -10 := by
  have h100 : ∀ v : ℚ, 31 / 10 ≤ v → batteryPercent v = 100 := by
    intro v hv
    have h1 : (100 : ℚ) ≤ (v - 21 / 10) * 100 := by linarith
    rw [batteryPercent, min_eq_right h1]
    norm_num [goRound]
  have hlow : ∀ v : ℚ, v ≤ 21 / 10 →
      batteryPercent v = (goRound ((v - 21 / 10) * 100 * 100) : ℚ) / 100 := by
    intro v hv
    have h1 : (v - 21 / 10) * 100 ≤ 100 := by linarith
    rw [batteryPercent, min_eq_left h1]
  refine ⟨?_, h100 (31 / 10) (le_refl _), h100, hlow, ?_⟩
  · rw [hlow (21 / 10) (le_refl _)]
    norm_num [goRound]
  · rw [hlow 2 (by norm_num)]
    norm_num [goRound]

/-- Witness for C7's clamping hypotheses at a voltage of 3.5 V and at a
voltage of 2.0 V. -/
theorem C7_witness :
    batteryPercent (7 / 2) = 100 ∧
    batteryPercent 2 = (goRound ((2 - 21 / 10) * 100 * 100) : ℚ) / 100 :=
  ⟨C7_battery_percent.2.2.1 (7 / 2) (by norm_num),
    C7_battery_percent.2.2.2.1 2 (by norm_num)⟩

/-- Claim C8: a notification payload whose length is not 5 bytes is
dropped by the handler callback: no gauge is written and the global state
(in particular the failure tally) is untouched. -/
theorem C8_bad_length_drops (req : List Nat) (g : Gauges) (s : GlobalState)
    (h : req.length ≠ 5) : handlerPublisher req g s = (g, s) := by
  obtain ⟨m, hm⟩ := Unmarshall_err_of_length h
  simp [handlerPublisher, hm]

/-- Witness for C8 at a concrete 4-byte payload. -/
theorem C8_witness :
    handlerPublisher [1, 2, 3, 4] ⟨none, none, none, none⟩ initState =
      (⟨none, none, none, none⟩, initState) :=
  C8_bad_length_drops [1, 2, 3, 4] ⟨none, none, none, none⟩ initState (by decide)

lemma retryAux_all_fail (outcome : Nat → Bool) :
    ∀ (n r b c f : Nat) (sl : List Nat), 1 ≤ r →
    (∀ j, r ≤ j → j < r + n → outcome j = false) →
    performWithRetryAux (traceAction outcome) traceOnError traceSleep n r b ⟨c, sl, f⟩ =
      (⟨c + n, sl ++ (List.range n).map (fun i => b * 3 ^ i), f + n⟩, false) := by
  intro n
  induction n with
  | zero =>
    intro r b c f sl hr hout
    simp [performWithRetryAux]
  | succ n ih =>
    intro r b c f sl hr hout
    have hr0 : r > 0 := hr
    have hfalse : outcome r = false := hout r (le_refl r) (by omega)
    have step :
        performWithRetryAux (traceAction outcome) traceOnError traceSleep (n + 1) r b
            ⟨c, sl, f⟩ =
          performWithRetryAux (traceAction outcome) traceOnError traceSleep n (r + 1) (b * 3)
            ⟨c + 1, sl ++ [b], f + 1⟩ := by
      simp [performWithRetryAux, hr0, traceSleep, traceAction, traceOnError, hfalse]
    rw [step, ih (r + 1) (b * 3) (c + 1) (f + 1) (sl ++ [b]) (by omega)
      (fun j hj hj2 => hout j (by omega) (by omega))]
    have hfun : (fun i => b * 3 * 3 ^ i) = ((fun i => b * 3 ^ i) ∘ Nat.succ) := by
      funext i
      simp [Function.comp, pow_succ]
      ring
    rw [List.range_succ_eq_map, List.map_cons, List.map_map, ← hfun]
    simp only [pow_zero, mul_one, Prod.mk.injEq, RetryTrace.mk.injEq]
    repeat' apply And.intro
    all_goals first | trivial | (simp; done) | omega

lemma retryAux_first_success (outcome : Nat → Bool) :
    ∀ (k n r b c f : Nat) (sl : List Nat), 1 ≤ r → k < n →
    outcome (r + k) = true →
    (∀ j, r ≤ j → j < r + k → outcome j = false) →
    performWithRetryAux (traceAction outcome) traceOnError traceSleep n r b ⟨c, sl, f⟩ =
      (⟨c + k + 1, sl ++ (List.range (k + 1)).map (fun i => b * 3 ^ i), f + k⟩, true) := by
  intro k
  induction k with
  | zero =>
    intro n r b c f sl hr hk hsucc _
    cases n with
    | zero => omega
    | succ n =>
      have hr0 : r > 0 := hr
      have h1 : outcome r = true := by simpa using hsucc
      simp [performWithRetryAux, hr0, traceSleep, traceAction, h1]
      rw [(by decide : List.range 1 = [0])]
      simp
  | succ k ih =>
    intro n r b c f sl hr hk hsucc hout
    cases n with
    | zero => omega
    | succ n =>
      have hr0 : r > 0 := hr
      have hfalse : outcome r = false := hout r (le_refl r) (by omega)
      have step :
          performWithRetryAux (traceAction outcome) traceOnError traceSleep (n + 1) r b
              ⟨c, sl, f⟩ =
            performWithRetryAux (traceAction outcome) traceOnError traceSleep n (r + 1) (b * 3)
              ⟨c + 1, sl ++ [b], f + 1⟩ := by
        simp [performWithRetryAux, hr0, traceSleep, traceAction, traceOnError, hfalse]
      rw [step, ih n (r + 1) (b * 3) (c + 1) (f + 1) (sl ++ [b]) (by omega) (by omega)
        (by rw [show r + 1 + k = r + (k + 1) by omega]; exact hsucc)
        (fun j hj hj2 => hout j (by omega) (by omega))]
      have hfun : (fun i => b * 3 * 3 ^ i) = ((fun i => b * 3 ^ i) ∘ Nat.succ) := by
        funext i
        simp [Function.comp, pow_succ]
        ring
      rw [List.range_succ_eq_map (k + 1), List.map_cons, List.map_map, ← hfun]
      simp only [pow_zero, mul_one, Prod.mk.injEq, RetryTrace.mk.injEq]
      repeat' apply And.intro
      all_goals first | trivial | (simp; done) | omega

lemma runRetry_step (m : Nat) (outcome : Nat → Bool) :
    runRetry (m + 1) outcome =
      if outcome 0 then (⟨1, [], 0⟩, true)
      else performWithRetryAux (traceAction outcome) traceOnError traceSleep m 1 1 ⟨1, [], 1⟩ := by
  simp only [runRetry, performWithRetry, performWithRetryAux, traceAction, traceOnError]
  norm_num

lemma runRetry_first_success (m k : Nat) (outcome : Nat → Bool) (hk : k < m)
    (hs : outcome k = true) (hprior : ∀ j, j < k → outcome j = false) :
    runRetry m outcome = (⟨k + 1, (List.range k).map (fun i => 3 ^ i), k⟩, true) := by
  cases m with
  | zero => omega
  | succ m =>
    rw [runRetry_step]
    cases k with
    | zero =>
      simp [hs]
    | succ k =>
      have h0 : outcome 0 = false := hprior 0 (by omega)
      rw [h0]
      simp only [Bool.false_eq_true, if_false]
      rw [retryAux_first_success outcome k m 1 1 1 1 [] (le_refl 1) (by omega)
        (by simpa [Nat.add_comm] using hs) (fun j hj hj2 => hprior j (by omega))]
      have hfun : (fun i : Nat => 1 * 3 ^ i) = (fun i : Nat => 3 ^ i) := by
        funext i
        ring
      simp only [hfun, List.nil_append, Prod.mk.injEq, RetryTrace.mk.injEq]
      repeat' apply And.intro
      all_goals first | trivial | (simp; done) | omega

lemma runRetry_all_fail (m : Nat) (outcome : Nat → Bool) (hm : 1 ≤ m)
    (h : ∀ j, j < m → outcome j = false) :
    runRetry m outcome = (⟨m, (List.range (m - 1)).map (fun i => 3 ^ i), m⟩, false) := by
  cases m with
  | zero => omega
  | succ m =>
    rw [runRetry_step, h 0 (by omega)]
    simp only [Bool.false_eq_true, if_false]
    rw [retryAux_all_fail outcome m 1 1 1 1 [] (le_refl 1)
      (fun j hj hj2 => h j (by omega))]
    have hfun : (fun i : Nat => 1 * 3 ^ i) = (fun i : Nat => 3 ^ i) := by
      funext i
      ring
    simp only [hfun, List.nil_append, Prod.mk.injEq, RetryTrace.mk.injEq]
    repeat' apply And.intro
    all_goals first | trivial | (simp; done) | omega

/-- Claim C5: the retry wrapper run with `maxAttempts = m ≥ 1` on an
operation whose attempt outcomes are `outcome`: if attempt `k` is the
first success the operation is called exactly `k + 1 ≤ m` times, the
sleep before the i-th retry is `3 ^ (i - 1)` seconds (base backoff 1 s,
factor 3), `onFailure` ran exactly once per failed attempt, and the
wrapper returns true; if every attempt fails it is called exactly `m`
times with `m - 1` such sleeps and `m` `onFailure` invocations and
returns false; and in every case the operation runs at most `m` times. -/
theorem C5_retry_contract (m : Nat) (outcome : Nat → Bool) (hm : 1 ≤ m) :
    (∀ k, k < m → outcome k = true → (∀ j, j < k → outcome j = false) →
      runRetry m outcome = (⟨k + 1, (List.range k).map (fun i => 3 ^ i), k⟩, true)) ∧
    ((∀ j, j < m → outcome j = false) →
      runRetry m outcome = (⟨m, (List.range (m - 1)).map (fun i => 3 ^ i), m⟩, false)) ∧
    ((runRetry m outcome).1).calls ≤ m := by
  refine ⟨fun k hk hs hp => runRetry_first_success m k outcome hk hs hp,
    fun h => runRetry_all_fail m outcome hm h, ?_⟩
  by_cases hex : ∃ j, outcome j = true ∧ j < m
  · obtain ⟨j0, hj0, hj0m⟩ := hex
    have hex2 : ∃ j, outcome j = true := ⟨j0, hj0⟩
    have hks : outcome (Nat.find hex2) = true := Nat.find_spec hex2
    have hkm : Nat.find hex2 < m := lt_of_le_of_lt (Nat.find_min' hex2 hj0) hj0m
    have hkp : ∀ j, j < Nat.find hex2 → outcome j = false := by
      intro j hj
      have hne := Nat.find_min hex2 hj
      cases hoj : outcome j with
      | false => rfl
      | true => exact absurd hoj hne
    rw [runRetry_first_success m (Nat.find hex2) outcome hkm hks hkp]
    show Nat.find hex2 + 1 ≤ m
    omega
  · have h : ∀ j, j < m → outcome j = false := by
      intro j hj
      cases hoj : outcome j with
      | false => rfl
      | true => exact absurd (⟨j, hoj, hj⟩ : ∃ j, outcome j = true ∧ j < m) hex
    rw [runRetry_all_fail m outcome hm h]

/-- Witness for C5 at maxAttempts 3 with the operation succeeding on the
second attempt: two calls, one 1 s sleep, one failure, result true. -/
theorem C5_witness :
    runRetry 3 (fun k => k == 1) =
      (⟨1 + 1, (List.range 1).map (fun i => 3 ^ i), 1⟩, true) :=
  (C5_retry_contract 3 (fun k => k == 1) (by norm_num)).1 1 (by norm_num) (by decide)
    (by
      intro j hj
      have hj0 : j = 0 := by omega
      subst hj0
      decide)

/-- Concrete oracle: everything succeeds. -/
def oracleAllOk : HwOracle :=
  ⟨true, fun _ => true, true, true, true, fun _ => true, fun _ => true, true⟩

/-- Concrete oracle: connect and profile discovery succeed but the
notification characteristic is not found, and the deferred disconnect
fails.  All other operations would succeed. -/
def oracleNoChar : HwOracle :=
  ⟨true, fun _ => true, false, false, false, fun _ => true, fun _ => true, false⟩

/-- Claim C1 (code divergence): the second return value of
`handleDeviceOperation` is nil on every run, because the unnamed results
are captured by the return statement before the deferred disconnect
assigns the local error variable; consequently, in a concrete cycle whose
deferred `Disconnect` errors (data read failed, incoming failure count 0)
the reset flag stays clear and no 10 s grace wait happens, contradicting
the claim that a disconnect error requests a global reset and waits. -/
theorem C1_code_divergence :
    (∀ (o : HwOracle) (name : String) (s : GlobalState),
      (handleDeviceOperation o name s).returnedErr = false) ∧
    (registerHandlerCycle oracleNoChar "a" 60 initState 0).disconnectErred = true ∧
    (registerHandlerCycle oracleNoChar "a" 60 initState 0).dataSuccess = false ∧
    (registerHandlerCycle oracleNoChar "a" 60 initState 0).criticalError = false ∧
    ((registerHandlerCycle oracleNoChar "a" 60 initState 0).g).resetNeeded = false ∧
    (registerHandlerCycle oracleNoChar "a" 60 initState 0).graceWait = 0 := by
  refine ⟨fun o name s => rfl, ?_, ?_, ?_, ?_, ?_⟩ <;> decide

/-- Claim C9: in every cycle in which the connection is established, the
trace contains a `disconnect` event strictly before the `releaseLock`
event, whatever the outcomes of publish, discovery, subscribe,
unsubscribe and disconnect are. -/
theorem C9_disconnect_before_release (o : HwOracle) (name : String)
    (interval : Nat) (s : GlobalState) (cf : Nat) (h : o.connectOk = true) :
    ∃ l1 l2 l3, (registerHandlerCycle o name interval s cf).trace =
      l1 ++ Ev.disconnect :: (l2 ++ Ev.releaseLock :: l3) := by
  refine ⟨Ev.acquireLock :: Ev.publish :: (readSensorData o name s).trace, [], [], ?_⟩
  simp [registerHandlerCycle, h, handleDeviceOperation]

/-- Witness for C9 at a concrete all-success cycle. -/
theorem C9_witness :
    ∃ l1 l2 l3, (registerHandlerCycle oracleAllOk "a" 60 initState 0).trace =
      l1 ++ Ev.disconnect :: (l2 ++ Ev.releaseLock :: l3) :=
  C9_disconnect_before_release oracleAllOk "a" 60 initState 0 rfl

/-- Claim C10: if profile discovery succeeds but the characteristic is
absent, lacks notify capability or has no CCCD, then `readSensorData`
returns false with the state and event trace exactly as discovery left
them (no hardware operation beyond discovery, no tally change afterward);
the enclosing cycle records a failure and increments the
consecutive-failure counter; and when discovery succeeded on its first
attempt the device tally is 0 afterward. -/
theorem C10_missing_characteristic (o : HwOracle) (name : String)
    (interval : Nat) (s : GlobalState) (cf : Nat)
    (hd : (discoverDeviceProfile o name s).2 = true)
    (hc : (o.charFound && (o.charNotify && o.charCCCD)) = false) :
    readSensorData o name s =
      ⟨((discoverDeviceProfile o name s).1).g,
        ((discoverDeviceProfile o name s).1).trace, false⟩ ∧
    (o.connectOk = true →
      (registerHandlerCycle o name interval s cf).success = false ∧
      (registerHandlerCycle o name interval s cf).cfChecked = cf + 1) ∧
    (o.discoverResults 0 = true → ((readSensorData o name s).g).errors name = 0) := by
  have hread : readSensorData o name s =
      ⟨((discoverDeviceProfile o name s).1).g,
        ((discoverDeviceProfile o name s).1).trace, false⟩ := by
    rcases hf : o.charFound with _ | _
    · simp [readSensorData, hd, hf]
    · rcases hn : (o.charNotify && o.charCCCD) with _ | _
      · simp [readSensorData, hd, hf, hn]
      · rw [hf, hn] at hc
        cases hc
  refine ⟨hread, ?_, ?_⟩
  · intro hco
    constructor <;>
      simp [registerHandlerCycle, hco, handleDeviceOperation, hread]
  · intro h0
    have hdisc : discoverDeviceProfile o name s =
        (⟨ResetErrors name s, [Ev.discoverAttempt], 0⟩, true) := by
      simp [discoverDeviceProfile, performWithRetry, performWithRetryAux, h0]
    rw [hread, hdisc]
    simp [ResetErrors]

/-- Witness for C10 at a concrete cycle: discovery succeeds immediately
but the characteristic is absent. -/
theorem C10_witness :
    readSensorData oracleNoChar "a" initState =
      ⟨((discoverDeviceProfile oracleNoChar "a" initState).1).g,
        ((discoverDeviceProfile oracleNoChar "a" initState).1).trace, false⟩ ∧
    (oracleNoChar.connectOk = true →
      (registerHandlerCycle oracleNoChar "a" 60 initState 0).success = false ∧
      (registerHandlerCycle oracleNoChar "a" 60 initState 0).cfChecked = 0 + 1) ∧
    (oracleNoChar.discoverResults 0 = true →
      ((readSensorData oracleNoChar "a" initState).g).errors "a" = 0) :=
  C10_missing_characteristic oracleNoChar "a" 60 initState 0 (by decide) (by decide)
example : Unmarshall [0xE8, 0x03, 0x32, 0x88, 0x13] = .ok ⟨10, 50, 5⟩ := by
  norm_num [Unmarshall, uint16LE]
example : batteryPercent 2 = -10 := by
  norm_num [batteryPercent, goRound]
example : batteryPercent (31 / 10) = 100 := by
  norm_num [batteryPercent, goRound]
